import Mathlib

/-!
Verification of the `ai-platform-data` retrieval core against its
specification.  The Python sources are shallowly embedded: pure functions
become Lean functions, external I/O (HTTP responses, metadata files on
disk) becomes explicit environment parameters, and Python `int` becomes
`Int` (or `Nat` where the value is a count).
-/

namespace AiPlatformData

/-! ## Tier / Edge model — `src/graph/__init__.py` -/

/-- `EdgeType` enum (graph/__init__.py lines 22-42). -/
inductive EdgeType
  | PARALLEL
  | PERPENDICULAR
  | SKIP_TIER
  deriving DecidableEq, Repr

/-- `get_edge_type_for_tier_diff` (graph/__init__.py lines 117-144):
`diff = abs(tier1 - tier2)`; `diff == 0 -> PARALLEL`;
`diff == 1 -> PERPENDICULAR`; otherwise `SKIP_TIER`. -/
def get_edge_type_for_tier_diff (tier1 tier2 : Int) : EdgeType :=
  let diff := |tier1 - tier2|
  if diff = 0 then EdgeType.PARALLEL
  else if diff = 1 then EdgeType.PERPENDICULAR
  else EdgeType.SKIP_TIER

/-! ## Python string helpers

Small executable models of the Python string operations the sources use.
They work on `String.data` (lists of characters) so that concrete runs
reduce inside the kernel. -/

/-- Python `str.lower()` (ASCII model, as used on concept/pattern lists). -/
def pyLower (s : String) : String :=
  String.mk (s.data.map Char.toLower)

/-- Bool test: `needle` is a prefix of `hay` (character lists). -/
def charPrefOf : List Char → List Char → Bool
  | [], _ => true
  | _ :: _, [] => false
  | a :: as, b :: bs => a = b && charPrefOf as bs

/-- Bool test: `needle` occurs inside `hay`; Python `needle in hay`. -/
def charInfixOf (needle : List Char) : List Char → Bool
  | [] => charPrefOf needle []
  | b :: bs => charPrefOf needle (b :: bs) || charInfixOf needle bs

/-- Python substring containment `needle in hay` on `String`. -/
def strContainsSub (hay needle : String) : Bool :=
  charInfixOf needle.data hay.data

/-- Python `path.split("/")[0] if "/" in path else ""`
(engine.py line 337). -/
def pySplitSlashHead (path : String) : String :=
  if path.data.contains '/' then
    String.mk (path.data.takeWhile (fun c => c ≠ '/'))
  else ""

/-- Worker for `pySplitlines`: accumulates the current line (reversed). -/
def splitlinesAux : List Char → List Char → List String
  | [], acc => if acc.isEmpty then [] else [String.mk acc.reverse]
  | '\r' :: '\n' :: rest, acc => String.mk acc.reverse :: splitlinesAux rest []
  | '\r' :: rest, acc => String.mk acc.reverse :: splitlinesAux rest []
  | '\n' :: rest, acc => String.mk acc.reverse :: splitlinesAux rest []
  | c :: rest, acc => splitlinesAux rest (c :: acc)

/-- Python `str.splitlines()` modelled for the line breaks `\n`, `\r\n`
and `\r`: no empty trailing line is produced for a trailing break. -/
def pySplitlines (s : String) : List String :=
  splitlinesAux s.data []

/-- Resolve one Python slice endpoint for a sequence of length `n`:
a negative index counts from the end, and both ends clamp to `[0, n]`. -/
def pySliceBound (n : Int) (i : Int) : Nat :=
  if i < 0 then (i + n).toNat else min i.toNat n.toNat

/-- Python list slice `l[i:j]` with integer endpoints. -/
def pySlice (l : List α) (i j : Int) : List α :=
  let n : Int := l.length
  (l.take (pySliceBound n j)).drop (pySliceBound n i)

/-! ## Data models — `src/code_reference/models.py` -/

/-- `RepoMetadata` dataclass (models.py lines 9-52). -/
structure RepoMetadata where
  id : String
  name : String := ""
  source_url : String := ""
  target_path : String := ""
  domain : String := ""
  tier : String := ""
  priority : Int := 5
  owner : String := ""
  license : String := "Unknown"
  languages : List String := []
  concepts : List String := []
  patterns : List String := []
  tags : List String := []
  description : String := ""
  why_include : String := ""
  mirrored : Bool := false
  indexed : Bool := false
  deriving DecidableEq, Repr

/-- `CodeChunk` dataclass (models.py lines 55-67).  `score` is a Python
float the core never computes with; it is carried as `Int`.  The free-form
`metadata` dict is carried as an association list. -/
structure CodeChunk where
  chunk_id : String
  repo_id : String
  file_path : String
  start_line : Int
  end_line : Int
  content : String
  language : String := ""
  score : Int := 0
  metadata : List (String × String) := []
  deriving DecidableEq, Repr

/-- `CodeReference` dataclass (models.py lines 70-77). -/
structure CodeReference where
  chunk : CodeChunk
  full_content : Option String := none
  source_url : String := ""
  repo_metadata : Option RepoMetadata := none
  deriving DecidableEq, Repr

/-- `CodeReference.citation` property (models.py lines 79-85): the
source-provided URL when non-empty, otherwise a constructed URL whose
anchor is always `#Lstart-Lend`. -/
def CodeReference.citation (ref : CodeReference) : String :=
  if ref.source_url ≠ "" then ref.source_url
  else
    "https://github.com/kevin-toles/code-reference-engine/blob/main" ++ "/" ++
      ref.chunk.file_path ++ "#L" ++ toString ref.chunk.start_line ++
      "-L" ++ toString ref.chunk.end_line

/-- `CodeContext` dataclass (models.py lines 88-96).  `related_repos`
(a list of string dicts, unused by the search path) is an association
list. -/
structure CodeContext where
  query : String
  primary_references : List CodeReference := []
  related_repos : List (String × String) := []
  domains_searched : List String := []
  total_chunks_found : Nat := 0
  deriving DecidableEq, Repr

/-! ## Retrieval client — `src/code_reference/github_client.py` -/

/-- `GitHubFile` dataclass (github_client.py lines 24-33).  `content`
holds the already base64-decoded text (the decode step of `get_file`
lines 121-124 is absorbed into the environment). -/
structure GitHubFile where
  path : String
  content : String
  sha : String
  size : Nat
  download_url : String := ""
  html_url : String := ""
  deriving DecidableEq, Repr

/-- Rate-limit headers carried by every API response
(spec §6, wire contract). -/
structure HttpHeaders where
  rateLimitRemaining : Nat
  rateLimitReset : Nat
  deriving DecidableEq, Repr

/-- Outcome of one contents-endpoint request:
HTTP 404, a raised transport/HTTP error, or a decoded file. -/
inductive FetchOutcome
  | notFound
  | httpError (msg : String)
  | success (f : GitHubFile)
  deriving DecidableEq, Repr

/-- One item of a code-search response, after the field extraction of
`search_code` (github_client.py lines 243-252). -/
structure SearchItem where
  path : String
  name : String
  sha : String
  html_url : String
  score : Int := 0
  deriving DecidableEq, Repr

/-- The external GitHub API, as an explicit environment:
`fileAt path ref` is the contents endpoint (response body plus its
rate-limit headers); `searchResp q per_page` is the search endpoint
(`none` models a transport failure). -/
structure GithubEnv where
  repo : String := "kevin-toles/code-reference-engine"
  fileAt : String → String → FetchOutcome × HttpHeaders
  searchResp : String → Nat → Option (List SearchItem)

/-- `GitHubClient.get_file` (github_client.py lines 98-140):
404 returns `None`, any raised error is caught and returns `None`,
success returns the decoded file.  The response's rate-limit headers are
never read. -/
def get_file (g : GithubEnv) (path : String) (ref : String) : Option GitHubFile :=
  match (g.fileAt path ref).1 with
  | FetchOutcome.notFound => none
  | FetchOutcome.httpError _ => none
  | FetchOutcome.success f => some f

/-- `GitHubClient.get_file_lines` (github_client.py lines 142-172). -/
def get_file_lines (g : GithubEnv) (path : String) (start_line end_line : Int)
    (ref : String) (context_lines : Int) : Option String :=
  match get_file g path ref with
  | none => none
  | some file =>
    let lines := pySplitlines file.content
    let start_idx := max 0 (start_line - 1 - context_lines)
    let end_idx := min (lines.length : Int) (end_line + context_lines)
    some (String.intercalate "\n" (pySlice lines start_idx end_idx))

/-- `GitHubClient.search_code` (github_client.py lines 208-256): builds
the query string (empty path/extension filters are falsy and skipped),
caps `per_page` at 100, and returns `[]` on any error. -/
def search_code (g : GithubEnv) (query : String) (path extension : Option String)
    (per_page : Nat) : List SearchItem :=
  let q := query ++ " repo:" ++ g.repo
  let q := match path with
    | some p => if p ≠ "" then q ++ " path:" ++ p else q
    | none => q
  let q := match extension with
    | some e => if e ≠ "" then q ++ " extension:" ++ e else q
    | none => q
  match g.searchResp q (min per_page 100) with
  | some items => items
  | none => []

/-- `GitHubClient.get_html_url` (github_client.py lines 270-286):
a zero or absent start line is falsy and yields no anchor; the range
suffix is added only when the end line is truthy and differs from the
start line. -/
def get_html_url (repo : String) (path : String)
    (start_line end_line : Option Int) : String :=
  let url := "https://github.com/" ++ repo ++ "/blob/main/" ++ path
  match start_line with
  | none => url
  | some s =>
    if s ≠ 0 then
      let url := url ++ "#L" ++ toString s
      match end_line with
      | none => url
      | some e => if e ≠ 0 ∧ e ≠ s then url ++ "-L" ++ toString e else url
    else url

/-- The mutable state of a `GitHubClient` (github_client.py lines 43-59):
token, repo, timeout and the optional open HTTP session.  The class has
no rate-limit fields. -/
structure GitHubClientState where
  token : String
  repo : String
  timeout : Int
  clientOpen : Bool
  deriving DecidableEq, Repr

/-- Observable actions of one client call: sleeping for a number of
seconds, or issuing the HTTP request. -/
inductive ClientAction
  | wait (seconds : Nat)
  | request
  deriving DecidableEq, Repr

/-- `get_file` with its state transition and action trace made explicit:
the code issues the request immediately (no wait), and the only state
change is that `self.client` opens the session if it was closed
(github_client.py lines 87-96, 112).  The rate-limit headers of the
response are ignored. -/
def getFileTraced (st : GitHubClientState) (g : GithubEnv) (path ref : String) :
    Option GitHubFile × GitHubClientState × List ClientAction :=
  (get_file g path ref, { st with clientOpen := true }, [ClientAction.request])

/-! ## Search engine — `src/code_reference/engine.py` -/

/-- One repo stub of the registry document (spec §6):
`{ id, metadata_path, priority }`. -/
structure RegistryRepo where
  id : String
  metadata_path : String
  priority : Int := 5
  deriving DecidableEq, Repr

/-- One domain of the registry document. -/
structure RegistryDomain where
  id : String
  repos : List RegistryRepo
  deriving DecidableEq, Repr

/-- The registry document (`repo_registry.json`). -/
structure Registry where
  domains : List RegistryDomain
  deriving DecidableEq, Repr

/-- The engine's external world: the loaded registry, the metadata files
on disk (`none` when the file at that path does not exist), the GitHub
API, and whether a Qdrant client was configured. -/
structure EngineEnv where
  registry : Registry
  metaFile : String → Option RepoMetadata
  github : GithubEnv
  qdrantConfigured : Bool

/-- Every repo stub of the registry, domains concatenated in order. -/
def allRegistryRepos (eng : EngineEnv) : List RegistryRepo :=
  eng.registry.domains.flatMap RegistryDomain.repos

/-- Scanner of `get_metadata`: the first registry repo whose id matches
and whose metadata file exists yields the loaded record; a matching repo
whose file is missing is skipped and the scan continues. -/
def findMeta (metaFile : String → Option RepoMetadata) (repo_id : String) :
    List RegistryRepo → Option RepoMetadata
  | [] => none
  | r :: rest =>
    if r.id = repo_id then
      match metaFile r.metadata_path with
      | some m => some m
      | none => findMeta metaFile repo_id rest
    else findMeta metaFile repo_id rest

/-- `CodeReferenceEngine.get_metadata` (engine.py lines 109-133).  The
per-process cache (lines 118-119, 130) only memoizes this deterministic
lookup, so the embedding is the pure scan over the domains' repos. -/
def get_metadata (eng : EngineEnv) (repo_id : String) : Option RepoMetadata :=
  findMeta eng.metaFile repo_id (allRegistryRepos eng)

/-- `CodeReferenceEngine.get_repos_for_domain` (engine.py lines 135-151):
repos of every domain whose id equals `domain_id`, keeping those whose
metadata resolves. -/
def get_repos_for_domain (eng : EngineEnv) (domain_id : String) : List RepoMetadata :=
  (eng.registry.domains.filter (fun d => d.id = domain_id)).flatMap
    (fun d => d.repos.filterMap (fun r => get_metadata eng r.id))

/-- `CodeReferenceEngine.get_repos_by_concept` (engine.py lines 153-173):
case-insensitive substring match of `concept` against each repo's
concept list. -/
def get_repos_by_concept (eng : EngineEnv) (concept : String) : List RepoMetadata :=
  let concept_lower := pyLower concept
  (allRegistryRepos eng).filterMap (fun r =>
    match get_metadata eng r.id with
    | some m =>
      if (m.concepts.map pyLower).any (fun c => strContainsSub c concept_lower)
      then some m else none
    | none => none)

/-- Python truthiness of an `Optional[list]` argument:
`None` and the empty list are both falsy. -/
def pyTruthyList : Option (List α) → Bool
  | none => false
  | some l => !l.isEmpty

/-- Scope gathering of `search` (engine.py lines 227-243): repos of the
given domains, else repos matching the given concepts, else every
mirrored repo; also the `domains_searched` list built alongside. -/
def gatherScope (eng : EngineEnv) (domains concepts : Option (List String)) :
    List RepoMetadata × List String :=
  if pyTruthyList domains then
    let ds := domains.getD []
    (ds.flatMap (get_repos_for_domain eng), ds)
  else if pyTruthyList concepts then
    ((concepts.getD []).flatMap (get_repos_by_concept eng), [])
  else
    ((allRegistryRepos eng).filterMap (fun r =>
      match get_metadata eng r.id with
      | some m => if m.mirrored then some m else none
      | none => none), [])

/-- Duplicate removal of `search` (engine.py lines 245-252): keep a repo
when its id is not in the `seen_ids` set, first occurrence wins. -/
def dedupById : List RepoMetadata → List String → List RepoMetadata
  | [], _ => []
  | r :: rest, seen =>
    if r.id ∈ seen then dedupById rest seen
    else r :: dedupById rest (r.id :: seen)

/-- `CodeReferenceEngine._search_qdrant` (engine.py line 309 block).
With no configured client it returns `[]`; with one, the body executes
`await asyncio.sleep(0)` although engine.py never imports `asyncio`, so
the call raises `NameError` before reaching its final `return []`. -/
def search_qdrant (qdrantConfigured : Bool) (query : String)
    (domains : Option (List String)) (top_k : Nat) :
    Except String (List CodeReference) :=
  if !qdrantConfigured then Except.ok []
  else
    let _ := query
    let _ := domains
    let _ := top_k
    Except.error "NameError: name asyncio is not defined"

/-- `CodeReferenceEngine._search_github` (engine.py lines 311-349):
each search hit becomes a reference with the placeholder chunk bounds
`start_line = 1`, `end_line = 100` and empty content. -/
def search_github (eng : EngineEnv) (query : String)
    (pathFilter : Option String) (limit : Nat) : List CodeReference :=
  (search_code eng.github query pathFilter none limit).map (fun result =>
    { chunk :=
        { chunk_id := "github:" ++ result.sha.take 8
          repo_id := pySplitSlashHead result.path
          file_path := result.path
          start_line := 1
          end_line := 100
          content := ""
          score := result.score }
      source_url := result.html_url })

/-- Layer A of `search` (engine.py lines 254-264): when a Qdrant client
is configured the call runs inside `try/except`, so an error contributes
nothing; without one the layer is skipped. -/
def layerARefs (eng : EngineEnv) (query : String)
    (domains : Option (List String)) (top_k : Nat) : List CodeReference :=
  if eng.qdrantConfigured then
    match search_qdrant eng.qdrantConfigured query domains top_k with
    | Except.ok qdrant_refs => [] ++ qdrant_refs
    | Except.error _ => []
  else []

/-- Layer B loop of `search` (engine.py lines 267-280), instrumented
with the list of `(target_path, limit)` queries it issues.  `remaining`
was computed once before the loop and every query uses
`min remaining 5`; the loop breaks when the accumulated references reach
`top_k`. -/
def layerB (eng : EngineEnv) (query : String) (top_k remaining : Nat) :
    List RepoMetadata → List CodeReference →
    List CodeReference × List (String × Nat)
  | [], references => (references, [])
  | repo :: rest, references =>
    if top_k ≤ references.length then (references, [])
    else
      let limit := min remaining 5
      let new := search_github eng query (some repo.target_path) limit
      let res := layerB eng query top_k remaining rest (references ++ new)
      (res.1, (repo.target_path, limit) :: res.2)

/-- Accumulation phase of `search` (engine.py lines 224-280): scope
resolution, Layer A, then Layer B over the first 10 scoped repos when
Layer A produced fewer than `top_k` references.  Returns the accumulated
references and the Layer B query trace. -/
def searchAccum (eng : EngineEnv) (query : String)
    (domains concepts : Option (List String)) (top_k : Nat) :
    List CodeReference × List (String × Nat) :=
  let target_repos := dedupById (gatherScope eng domains concepts).1 []
  let references := layerARefs eng query domains top_k
  if references.length < top_k then
    let remaining := top_k - references.length
    layerB eng query top_k remaining (target_repos.take 10) references
  else (references, [])

/-- The references accumulated before truncation. -/
def searchRefs (eng : EngineEnv) (query : String)
    (domains concepts : Option (List String)) (top_k : Nat) : List CodeReference :=
  (searchAccum eng query domains concepts top_k).1

/-- The `(target_path, limit)` pairs of the Layer B queries issued. -/
def searchCalls (eng : EngineEnv) (query : String)
    (domains concepts : Option (List String)) (top_k : Nat) : List (String × Nat) :=
  (searchAccum eng query domains concepts top_k).2

/-- Context expansion of `search` (engine.py lines 282-295) for one
reference: only a reference still lacking `full_content` is expanded,
a failed fetch (`None`, or an exception caught by the `except` block)
or empty content leaves the reference unchanged. -/
def expandRef (eng : EngineEnv) (context_lines : Int) (ref : CodeReference) :
    CodeReference :=
  match ref.full_content with
  | some _ => ref
  | none =>
    match get_file_lines eng.github ref.chunk.file_path
        (max 1 (ref.chunk.start_line - context_lines))
        (ref.chunk.end_line + context_lines) "main" 0 with
    | some content =>
      if content ≠ "" then { ref with full_content := some content } else ref
    | none => ref

/-- Metadata attachment of `search` (engine.py lines 297-300). -/
def attachMeta (eng : EngineEnv) (ref : CodeReference) : CodeReference :=
  match ref.repo_metadata with
  | some _ => ref
  | none => { ref with repo_metadata := get_metadata eng ref.chunk.repo_id }

/-- `CodeReferenceEngine.search` (engine.py lines 197-307): accumulate,
optionally expand context, attach metadata, truncate to `top_k` and
record the pre-truncation total. -/
def search (eng : EngineEnv) (query : String)
    (domains concepts : Option (List String)) (top_k : Nat)
    (expand_context : Bool) (context_lines : Int) : CodeContext :=
  let domains_searched := (gatherScope eng domains concepts).2
  let references := searchRefs eng query domains concepts top_k
  let references :=
    if expand_context then references.map (expandRef eng context_lines)
    else references
  let references := references.map (attachMeta eng)
  { query := query
    primary_references := references.take top_k
    domains_searched := domains_searched
    total_chunks_found := references.length }

/-! ## Concrete instances used by witnesses and counterexamples -/

/-- A GitHub environment where every fetch is a 404 and every search
fails on transport. -/
def ghEnvEmpty : GithubEnv :=
  { fileAt := fun _ _ =>
      (FetchOutcome.notFound, { rateLimitRemaining := 5000, rateLimitReset := 0 })
    searchResp := fun _ _ => none }

/-- An engine over an empty registry. -/
def envEmpty : EngineEnv :=
  { registry := { domains := [] }
    metaFile := fun _ => none
    github := ghEnvEmpty
    qdrantConfigured := false }

/-- Two distinct registry repos whose metadata share one `target_path`. -/
def metaShared1 : RepoMetadata := { id := "r1", target_path := "shared" }

/-- Second repo descriptor sharing `target_path` with `metaShared1`. -/
def metaShared2 : RepoMetadata := { id := "r2", target_path := "shared" }

/-- The single hit the shared-path code search returns. -/
def sharedItem : SearchItem :=
  { path := "shared/file.py", name := "file.py", sha := "abcdef1234", html_url := "" }

/-- Engine whose two scoped repos share a `target_path`, so both Layer B
queries return the same hit. -/
def envDup : EngineEnv :=
  { registry :=
      { domains :=
          [ { id := "d"
              repos :=
                [ { id := "r1", metadata_path := "m1" }
                  , { id := "r2", metadata_path := "m2" } ] } ] }
    metaFile := fun p =>
      if p = "m1" then some metaShared1
      else if p = "m2" then some metaShared2 else none
    github :=
      { fileAt := fun _ _ =>
          (FetchOutcome.notFound, { rateLimitRemaining := 5000, rateLimitReset := 0 })
        searchResp := fun _ _ => some [sharedItem] }
    qdrantConfigured := false }

/-- One of five hits under the path `p1`. -/
def itemP1 (k : String) : SearchItem :=
  { path := "p1/" ++ k ++ ".py", name := k, sha := k, html_url := "" }

/-- Engine with two scoped repos under paths `p1` and `p2`, where the
`p1` query returns 5 hits and the `p2` query returns none. -/
def envC4 : EngineEnv :=
  { registry :=
      { domains :=
          [ { id := "d"
              repos :=
                [ { id := "r1", metadata_path := "m1" }
                  , { id := "r2", metadata_path := "m2" } ] } ] }
    metaFile := fun p =>
      if p = "m1" then some { id := "r1", target_path := "p1" }
      else if p = "m2" then some { id := "r2", target_path := "p2" } else none
    github :=
      { fileAt := fun _ _ =>
          (FetchOutcome.notFound, { rateLimitRemaining := 5000, rateLimitReset := 0 })
        searchResp := fun q _ =>
          if strContainsSub q "path:p1" then
            some [itemP1 "a", itemP1 "b", itemP1 "c", itemP1 "d", itemP1 "e"]
          else some [] }
    qdrantConfigured := false }

/-- A four-line file for the line-window witness. -/
def fileC8 : GitHubFile :=
  { path := "f.py", content := "a\nb\nc\nd", sha := "s", size := 7 }

/-- Environment serving `fileC8` for every fetch. -/
def ghEnvC8 : GithubEnv :=
  { fileAt := fun _ _ =>
      (FetchOutcome.success fileC8, { rateLimitRemaining := 5000, rateLimitReset := 0 })
    searchResp := fun _ _ => none }

/-- A small file served with rate-limit headers. -/
def fileReadme : GitHubFile :=
  { path := "README.md", content := "hello", sha := "abc", size := 5 }

/-- Environment whose responses report 95 of 5000 remaining, reset in
30 s — the spec's low-quota scenario. -/
def ghEnvLowQuota : GithubEnv :=
  { fileAt := fun _ _ =>
      (FetchOutcome.success fileReadme, { rateLimitRemaining := 95, rateLimitReset := 30 })
    searchResp := fun _ _ => none }

/-- Environment whose responses report a full quota. -/
def ghEnvHighQuota : GithubEnv :=
  { fileAt := fun _ _ =>
      (FetchOutcome.success fileReadme, { rateLimitRemaining := 5000, rateLimitReset := 0 })
    searchResp := fun _ _ => none }

/-- A fresh client state. -/
def stInit : GitHubClientState :=
  { token := "", repo := "kevin-toles/code-reference-engine"
    timeout := 30, clientOpen := false }

/-- A reference whose chunk starts and ends on line 5 and that carries
no source-provided URL. -/
def refSameLines : CodeReference :=
  { chunk :=
      { chunk_id := "c1", repo_id := "r", file_path := "src/app.py"
        start_line := 5, end_line := 5, content := "" } }

/-- A reference carrying a source-provided URL. -/
def refWithUrl : CodeReference :=
  { chunk :=
      { chunk_id := "c2", repo_id := "r", file_path := "src/app.py"
        start_line := 1, end_line := 2, content := "" }
    source_url := "http://example.com/x" }

/-- The dedup key of the `SearchResult` invariant:
`(repo id, file path, start line)`. -/
def chunkTriple (r : CodeReference) : String × String × Int :=
  (r.chunk.repo_id, r.chunk.file_path, r.chunk.start_line)

/-! ## Helper lemmas -/

/-- Context expansion never touches the chunk of a reference. -/
theorem expandRef_chunk (eng : EngineEnv) (c : Int) (ref : CodeReference) :
    (expandRef eng c ref).chunk = ref.chunk := by
  unfold expandRef
  rcases ref.full_content with _ | fc
  · rcases get_file_lines eng.github ref.chunk.file_path
      (max 1 (ref.chunk.start_line - c)) (ref.chunk.end_line + c) "main" 0 with _ | content
    · rfl
    · by_cases h : content ≠ "" <;> simp [h]
  · rfl

/-- Metadata attachment never touches the chunk of a reference. -/
theorem attachMeta_chunk (eng : EngineEnv) (ref : CodeReference) :
    (attachMeta eng ref).chunk = ref.chunk := by
  unfold attachMeta
  rcases ref.repo_metadata with _ | m <;> rfl

/-- The dedup pass yields a sublist of its input. -/
theorem dedupById_sublist (l : List RepoMetadata) (seen : List String) :
    (dedupById l seen).Sublist l := by
  induction l generalizing seen with
  | nil => simp [dedupById]
  | cons r rest ih =>
    unfold dedupById
    by_cases h : r.id ∈ seen
    · simp only [if_pos h]
      exact List.Sublist.cons r (ih seen)
    · simp only [if_neg h]
      exact List.Sublist.cons₂ r (ih (r.id :: seen))

/-- Members of the dedup output have ids outside the `seen` set. -/
theorem dedupById_id_not_seen (l : List RepoMetadata) (seen : List String)
    (r : RepoMetadata) (hr : r ∈ dedupById l seen) : r.id ∉ seen := by
  induction l generalizing seen with
  | nil => simp [dedupById] at hr
  | cons x rest ih =>
    unfold dedupById at hr
    by_cases h : x.id ∈ seen
    · simp only [if_pos h] at hr
      exact ih seen hr
    · simp only [if_neg h, List.mem_cons] at hr
      rcases hr with rfl | hr
      · exact h
      · intro hmem
        exact ih (x.id :: seen) hr (List.mem_cons_of_mem _ hmem)

/-- The ids surviving the dedup pass are pairwise distinct. -/
theorem dedupById_ids_nodup (l : List RepoMetadata) (seen : List String) :
    ((dedupById l seen).map RepoMetadata.id).Nodup := by
  induction l generalizing seen with
  | nil => simp [dedupById]
  | cons x rest ih =>
    unfold dedupById
    by_cases h : x.id ∈ seen
    · simp only [if_pos h]
      exact ih seen
    · simp only [if_neg h, List.map_cons, List.nodup_cons]
      refine ⟨?_, ih (x.id :: seen)⟩
      intro hmem
      rcases List.mem_map.mp hmem with ⟨y, hy, hid⟩
      exact dedupById_id_not_seen rest (x.id :: seen) y hy
        (hid ▸ List.mem_cons_self _ _)

/-- Every survivor of the dedup pass is the first element of the input
carrying its id. -/
theorem dedupById_first (l : List RepoMetadata) (seen : List String)
    (r : RepoMetadata) (hr : r ∈ dedupById l seen) :
    l.find? (fun x => x.id == r.id) = some r := by
  induction l generalizing seen with
  | nil => simp [dedupById] at hr
  | cons x rest ih =>
    unfold dedupById at hr
    by_cases h : x.id ∈ seen
    · simp only [if_pos h] at hr
      have hnotin := dedupById_id_not_seen rest seen r hr
      have hne : (x.id == r.id) = false := by
        rw [beq_eq_false_iff_ne]
        intro he
        exact hnotin (he ▸ h)
      rw [List.find?_cons, hne]
      exact ih seen hr
    · simp only [if_neg h, List.mem_cons] at hr
      rcases hr with rfl | hr
      · rw [List.find?_cons]
        simp
      · have hnotin := dedupById_id_not_seen rest (x.id :: seen) r hr
        have hne : (x.id == r.id) = false := by
          rw [beq_eq_false_iff_ne]
          intro he
          exact hnotin (he ▸ List.mem_cons_self _ _)
        rw [List.find?_cons, hne]
        exact ih (x.id :: seen) hr

/-- Behaviour of the Layer B loop: no query once the cap is already met;
queried paths form a prefix of the repo list in order; every query uses
the fixed limit `min remaining 5`; and if the loop ends under the cap it
has queried every repo of the list. -/
theorem layerB_spec (eng : EngineEnv) (query : String) (top_k remaining : Nat)
    (repos : List RepoMetadata) :
    ∀ references : List CodeReference,
      (top_k ≤ references.length →
        (layerB eng query top_k remaining repos references).2 = []) ∧
      ((layerB eng query top_k remaining repos references).2.map Prod.fst <+:
        repos.map RepoMetadata.target_path) ∧
      (∀ c ∈ (layerB eng query top_k remaining repos references).2,
        c.2 = min remaining 5) ∧
      ((layerB eng query top_k remaining repos references).1.length < top_k →
        (layerB eng query top_k remaining repos references).2.map Prod.fst =
          repos.map RepoMetadata.target_path) := by
  induction repos with
  | nil =>
    intro references
    refine ⟨fun _ => rfl, ?_, ?_, fun _ => rfl⟩
    · simp [layerB]
    · simp [layerB]
  | cons repo rest ih =>
    intro references
    unfold layerB
    by_cases h : top_k ≤ references.length
    · simp only [if_pos h]
      refine ⟨?_, ?_, ?_, ?_⟩
      · simp
      · exact ⟨(repo :: rest).map RepoMetadata.target_path, rfl⟩
      · simp
      · intro hlt
        have hlt2 : references.length < top_k := hlt
        omega
    · simp only [if_neg h]
      obtain ⟨ih1, ih2, ih3, ih4⟩ :=
        ih (references ++ search_github eng query (some repo.target_path) (min remaining 5))
      refine ⟨fun hk => absurd hk h, ?_, ?_, ?_⟩
      · obtain ⟨t, ht⟩ := ih2
        exact ⟨t, by simp [← ht]⟩
      · intro c hc
        rcases List.mem_cons.mp hc with rfl | hc
        · rfl
        · exact ih3 c hc
      · intro hlt
        simp only [List.map_cons]
        rw [ih4 hlt]

/-- Positive slice endpoints: the Python slice
`lines[max(0, s-1-c) : min(n, e+c)]` equals the 1-indexed window from
line `max 1 (s-c)` through line `min n (e+c)` inclusive. -/
theorem pySlice_eq_window (l : List α) (s e c : Int)
    (hs : 1 ≤ s) (hse : s ≤ e) (hc : 0 ≤ c) :
    pySlice l (max 0 (s - 1 - c)) (min (l.length : Int) (e + c)) =
      (l.take (min l.length (e + c).toNat)).drop ((max 1 (s - c)).toNat - 1) := by
  have hj : ¬ (min (l.length : Int) (e + c) < 0) := by omega
  have hi : ¬ (max 0 (s - 1 - c) < 0) := by omega
  simp only [pySlice, pySliceBound]
  rw [if_neg hi, if_neg hj]
  have hb : (min (l.length : Int) (e + c)).toNat ⊓ ((l.length : Int)).toNat =
      min l.length (e + c).toNat := by omega
  rw [hb]
  have ha : (max 1 (s - c)).toNat - 1 = (max 0 (s - 1 - c)).toNat := by omega
  rw [ha]
  have hn : ((l.length : Int)).toNat = l.length := by omega
  rw [hn]
  rcases le_or_lt ((max 0 (s - 1 - c)).toNat) l.length with hle | hgt
  · rw [min_eq_left hle]
  · rw [min_eq_right (le_of_lt hgt)]
    rw [List.drop_eq_nil_of_le (by rw [List.length_take]; omega),
      List.drop_eq_nil_of_le (by rw [List.length_take]; omega)]

/-! ## Claim theorems -/

/-- C1: the tier classification is total over all integer pairs and
determined solely by `|a - b|` — 0 gives PARALLEL, 1 gives PERPENDICULAR,
2 or more gives SKIP_TIER; exactly one label holds since `|a - b|` falls
in exactly one bucket — and `classify(a,b) = classify(b,a)` for all
integers, including negative and equal tiers. -/
theorem C1_tier_classification (a b : Int) :
    get_edge_type_for_tier_diff a b = get_edge_type_for_tier_diff b a ∧
    (get_edge_type_for_tier_diff a b = EdgeType.PARALLEL ↔ |a - b| = 0) ∧
    (get_edge_type_for_tier_diff a b = EdgeType.PERPENDICULAR ↔ |a - b| = 1) ∧
    (get_edge_type_for_tier_diff a b = EdgeType.SKIP_TIER ↔ 2 ≤ |a - b|) := by
  have habs : 0 ≤ |a - b| := abs_nonneg (a - b)
  have hsym : |b - a| = |a - b| := abs_sub_comm b a
  simp only [get_edge_type_for_tier_diff, hsym]
  by_cases h0 : |a - b| = 0
  · simp [h0]
  · by_cases h1 : |a - b| = 1
    · simp [h0, h1]
    · simp [h0, h1] <;> omega

/-- C2 counterexample: with two scoped repos sharing one `target_path`,
one `search` call returns two references carrying the identical
(repo id, file path, start line) triple — the triple
`("shared", "shared/file.py", 1)` occurs twice — so the references list
is not deduplicated by that key. -/
theorem C2_counterexample :
    ((search envDup "x" (some ["d"]) none 5 false 20).primary_references.map
        chunkTriple) =
      [("shared", "shared/file.py", (1 : Int)),
        ("shared", "shared/file.py", (1 : Int))] ∧
    ((search envDup "x" (some ["d"]) none 5 false 20).primary_references.map
        chunkTriple).count ("shared", "shared/file.py", (1 : Int)) = 2 := by
  exact ⟨by decide, by decide⟩

/-- C2 (amended): `search` applies no deduplication to its references:
the returned list is exactly the accumulated layer output truncated to
`top_k` — expansion and metadata attachment preserve every
(repo id, file path, start line) triple — so duplicate triples can
survive into the result. -/
theorem C2_references_not_deduplicated (eng : EngineEnv) (query : String)
    (domains concepts : Option (List String)) (top_k : Nat)
    (expand_context : Bool) (context_lines : Int) :
    (search eng query domains concepts top_k expand_context
        context_lines).primary_references.map chunkTriple =
      ((searchRefs eng query domains concepts top_k).map chunkTriple).take top_k := by
  have hexp : ∀ r : CodeReference,
      chunkTriple (attachMeta eng (expandRef eng context_lines r)) = chunkTriple r := by
    intro r
    unfold chunkTriple
    rw [attachMeta_chunk, expandRef_chunk]
  have hatt : ∀ r : CodeReference,
      chunkTriple (attachMeta eng r) = chunkTriple r := by
    intro r
    unfold chunkTriple
    rw [attachMeta_chunk]
  by_cases h : expand_context
  · simp only [search, if_pos h, List.map_take, List.map_map]
    exact congrArg (List.take top_k)
      (List.map_congr_left (fun a _ => hexp a))
  · simp only [search, if_neg h, List.map_take, List.map_map]
    exact congrArg (List.take top_k)
      (List.map_congr_left (fun a _ => hatt a))

/-- C3 counterexample: in the spec's low-quota scenario (95 of 5000
remaining, reset in 30 s) the next `get_file` call issues its request
immediately — its action trace is exactly `[request]`, containing no
wait — and the client state after the call is identical to the one
obtained under a full quota: no remaining-quota or reset-time state is
updated from the response headers. -/
theorem C3_counterexample :
    (getFileTraced stInit ghEnvLowQuota "README.md" "main").2.2 =
      [ClientAction.request] ∧
    ((getFileTraced stInit ghEnvLowQuota "README.md" "main").2.2.all
      (fun act => match act with
        | ClientAction.wait _ => false
        | ClientAction.request => true)) = true ∧
    (getFileTraced stInit ghEnvLowQuota "README.md" "main").2.1 =
      (getFileTraced stInit ghEnvHighQuota "README.md" "main").2.1 ∧
    (getFileTraced stInit ghEnvLowQuota "README.md" "main").1 = some fileReadme := by
  exact ⟨rfl, rfl, rfl, rfl⟩

/-- C3 (amended): the client performs no rate-limit tracking — every
call issues its request immediately with a trace of exactly `[request]`,
the only state change is opening the HTTP session, and the response's
rate-limit headers are never read — while errors never surface to the
caller: a 404 or any raised HTTP/transport error (including quota
errors) is caught and returned as `none`. -/
theorem C3_no_rate_limit_tracking (st : GitHubClientState) (g : GithubEnv)
    (path ref : String) :
    (getFileTraced st g path ref).2.2 = [ClientAction.request] ∧
    (getFileTraced st g path ref).2.1 = { st with clientOpen := true } ∧
    (getFileTraced st g path ref).1 = get_file g path ref ∧
    ((g.fileAt path ref).1 = FetchOutcome.notFound →
      get_file g path ref = none) ∧
    (∀ msg, (g.fileAt path ref).1 = FetchOutcome.httpError msg →
      get_file g path ref = none) := by
  refine ⟨rfl, rfl, rfl, ?_, ?_⟩
  · intro h
    simp [get_file, h]
  · intro msg h
    simp [get_file, h]

/-- Witness for C3 (amended): a 404 becomes `none`. -/
theorem C3_no_rate_limit_tracking_witness :
    get_file ghEnvEmpty "x.py" "main" = none :=
  (C3_no_rate_limit_tracking stInit ghEnvEmpty "x.py" "main").2.2.2.1 rfl

/-- C4 counterexample: with `top_k = 7`, the first scoped repo returning
5 hits and 0 Layer A references, the loop's second query still requests
5 hits although only `min(7 - 5, 5) = 2` references were missing at that
time — `remaining` is computed once before the loop, not per query. -/
theorem C4_counterexample :
    searchCalls envC4 "x" (some ["d"]) none 7 = [("p1", 5), ("p2", 5)] ∧
    min (7 - (layerARefs envC4 "x" (some ["d"]) 7).length -
      (search_github envC4 "x" (some "p1") 5).length) 5 = 2 := by
  exact ⟨by decide, by decide⟩

/-- C4 (amended): Layer B runs only when Layer A produced fewer than
`top_k` references; its queries cover a prefix of the first 10 scoped
repos in resolution order; every per-repo query requests exactly
`min(top_k − |Layer A refs|, 5)` hits, the remainder being computed once
before the loop; accumulation stops at the cap, and when the loop ends
under the cap it has queried all of the first 10 scoped repos. -/
theorem C4_layer_b_bounds (eng : EngineEnv) (query : String)
    (domains concepts : Option (List String)) (top_k : Nat) :
    (top_k ≤ (layerARefs eng query domains top_k).length →
      searchCalls eng query domains concepts top_k = []) ∧
    ((searchCalls eng query domains concepts top_k).map Prod.fst <+:
      ((dedupById (gatherScope eng domains concepts).1 []).take 10).map
        RepoMetadata.target_path) ∧
    (∀ c ∈ searchCalls eng query domains concepts top_k,
      c.2 = min (top_k - (layerARefs eng query domains top_k).length) 5) ∧
    ((searchRefs eng query domains concepts top_k).length < top_k →
      (searchCalls eng query domains concepts top_k).map Prod.fst =
        ((dedupById (gatherScope eng domains concepts).1 []).take 10).map
          RepoMetadata.target_path) := by
  simp only [searchCalls, searchRefs, searchAccum]
  by_cases h : (layerARefs eng query domains top_k).length < top_k
  · simp only [if_pos h]
    exact layerB_spec eng query top_k
      (top_k - (layerARefs eng query domains top_k).length)
      ((dedupById (gatherScope eng domains concepts).1 []).take 10)
      (layerARefs eng query domains top_k)
  · simp only [if_neg h]
    refine ⟨?_, ?_, ?_, ?_⟩
    · intro _
      trivial
    · exact ⟨_, rfl⟩
    · intro c hc
      exact absurd hc (List.not_mem_nil c)
    · intro hlt
      have hlt2 : (layerARefs eng query domains top_k).length < top_k := hlt
      exact absurd hlt2 h

/-- Witness for C4 (amended): the first query of a concrete run uses the
loop-constant limit. -/
theorem C4_layer_b_bounds_witness :
    ("p1", (5 : Nat)).2 =
      min (7 - (layerARefs envC4 "x" (some ["d"]) 7).length) 5 :=
  (C4_layer_b_bounds envC4 "x" (some ["d"]) none 7).2.2.1 ("p1", 5) (by decide)

/-- C5 counterexample: a reference with `start_line = end_line = 5` and
no source URL gets the citation anchor `#L5-L5` — the anchor does not
collapse to `#L5` as the claim states. -/
theorem C5_counterexample :
    CodeReference.citation refSameLines =
      "https://github.com/kevin-toles/code-reference-engine/blob/main/src/app.py#L5-L5" ∧
    (CodeReference.citation refSameLines ==
      "https://github.com/kevin-toles/code-reference-engine/blob/main/src/app.py#L5") =
      false := by
  exact ⟨by decide, by decide⟩

/-- C5 (amended): `citation` returns the source-provided URL when it is
non-empty; otherwise it returns the constructed URL whose anchor is
always `#Lstart-Lend`, even when start = end.  The collapse to `#Lstart`
for start = end exists only in `GitHubClient.get_html_url`, which
`citation` does not use. -/
theorem C5_citation_behavior (ref : CodeReference) (repo path : String)
    (s e : Int) :
    (ref.source_url ≠ "" → CodeReference.citation ref = ref.source_url) ∧
    (ref.source_url = "" → CodeReference.citation ref =
      "https://github.com/kevin-toles/code-reference-engine/blob/main" ++ "/" ++
        ref.chunk.file_path ++ "#L" ++ toString ref.chunk.start_line ++
        "-L" ++ toString ref.chunk.end_line) ∧
    (s ≠ 0 → get_html_url repo path (some s) (some s) =
      "https://github.com/" ++ repo ++ "/blob/main/" ++ path ++
        "#L" ++ toString s) ∧
    (s ≠ 0 → e ≠ 0 → e ≠ s → get_html_url repo path (some s) (some e) =
      "https://github.com/" ++ repo ++ "/blob/main/" ++ path ++
        "#L" ++ toString s ++ "-L" ++ toString e) := by
  refine ⟨?_, ?_, ?_, ?_⟩
  · intro h
    simp [CodeReference.citation, h]
  · intro h
    simp [CodeReference.citation, h]
  · intro hs
    simp [get_html_url, hs]
  · intro hs he hne
    simp [get_html_url, hs, he, hne]

/-- Witness for C5 (amended): a source-provided URL is returned as-is. -/
theorem C5_citation_behavior_witness :
    CodeReference.citation refWithUrl = "http://example.com/x" :=
  (C5_citation_behavior refWithUrl "r" "p" 1 2).1 (by decide)

/-- C6: for every call, `len(references) ≤ top_k`; `top_k = 0` yields an
empty references list (and no error — `search` is a total function); and
`total_chunks_found` equals the number of references accumulated before
truncation. -/
theorem C6_cap_respected (eng : EngineEnv) (query : String)
    (domains concepts : Option (List String)) (top_k : Nat)
    (expand_context : Bool) (context_lines : Int) :
    (search eng query domains concepts top_k expand_context
        context_lines).primary_references.length ≤ top_k ∧
    (top_k = 0 → (search eng query domains concepts top_k expand_context
        context_lines).primary_references = []) ∧
    (search eng query domains concepts top_k expand_context
        context_lines).total_chunks_found =
      (searchRefs eng query domains concepts top_k).length := by
  refine ⟨?_, ?_, ?_⟩
  · by_cases h : expand_context <;>
      simp [search, h, List.length_take] <;> omega
  · intro h0
    subst h0
    by_cases h : expand_context <;> simp [search, h]
  · by_cases h : expand_context <;> simp [search, h]

/-- Witness for C6: `top_k = 0` returns an empty list on a concrete
engine. -/
theorem C6_cap_respected_witness :
    (search envEmpty "q" none none 0 true 20).primary_references = [] :=
  (C6_cap_respected envEmpty "q" none none 0 true 20).2.1 rfl

/-- C7: the scope resolved by `search` — whichever of the three
gathering modes produced it — contains each repo id at most once, is a
sublist of the gathered list (first-seen order preserved), and every
surviving repo is the first occurrence of its id in resolution order. -/
theorem C7_scope_dedup (eng : EngineEnv)
    (domains concepts : Option (List String)) :
    ((dedupById (gatherScope eng domains concepts).1 []).map
        RepoMetadata.id).Nodup ∧
    (dedupById (gatherScope eng domains concepts).1 []).Sublist
      (gatherScope eng domains concepts).1 ∧
    (∀ r ∈ dedupById (gatherScope eng domains concepts).1 [],
      (gatherScope eng domains concepts).1.find? (fun x => x.id == r.id) =
        some r) :=
  ⟨dedupById_ids_nodup _ [], dedupById_sublist _ [],
    fun r hr => dedupById_first _ [] r hr⟩

/-- Witness for C7: on a concrete overlapping registry, a surviving repo
is the first occurrence of its id. -/
theorem C7_scope_dedup_witness :
    (gatherScope envDup (some ["d"]) none).1.find?
      (fun x => x.id == metaShared1.id) = some metaShared1 :=
  (C7_scope_dedup envDup (some ["d"]) none).2.2 metaShared1 (by decide)

/-- C8: when the fetch succeeds, `get_file_lines` returns the file's
lines from line `max 1 (start − padding)` through line `end + padding`
clamped to the file's length (1-indexed, inclusive), joined with
newlines; when the file is not found, the NotFound outcome propagates as
`none`.  Stated for 1-indexed requests (`1 ≤ start ≤ end`) and
non-negative padding. -/
theorem C8_line_window (f : GitHubFile) (g gnf : GithubEnv)
    (path ref : String) (s e c : Int)
    (hs : 1 ≤ s) (hse : s ≤ e) (hc : 0 ≤ c)
    (hok : (g.fileAt path ref).1 = FetchOutcome.success f)
    (hnf : (gnf.fileAt path ref).1 = FetchOutcome.notFound) :
    get_file_lines g path s e ref c =
      some (String.intercalate "\n"
        (((pySplitlines f.content).take
            (min (pySplitlines f.content).length (e + c).toNat)).drop
          ((max 1 (s - c)).toNat - 1))) ∧
    get_file_lines gnf path s e ref c = none := by
  constructor
  · simp only [get_file_lines, get_file, hok]
    rw [pySlice_eq_window _ s e c hs hse hc]
  · simp only [get_file_lines, get_file, hnf]

/-- Witness for C8 on a concrete four-line file:
lines 2–3 with padding 1 yield lines 1–4. -/
theorem C8_line_window_witness :
    get_file_lines ghEnvC8 "f.py" 2 3 "main" 1 = some "a\nb\nc\nd" := by
  have h := (C8_line_window fileC8 ghEnvC8 ghEnvEmpty "f.py" "main" 2 3 1
    (by decide) (by decide) (by decide) rfl rfl).1
  rw [h]
  decide

/-- C9: context expansion drops no reference — the expanded list has the
same length and the chunk at every position is unchanged — and a
reference whose expansion fetch fails (`none`) or returns no content
(`""`) is left entirely unchanged. -/
theorem C9_expansion_nondestructive (eng : EngineEnv) (context_lines : Int)
    (references : List CodeReference) :
    ((references.map (expandRef eng context_lines)).length =
      references.length) ∧
    (∀ i : Nat,
      ((references.map (expandRef eng context_lines)).get? i).map
          CodeReference.chunk =
        (references.get? i).map CodeReference.chunk) ∧
    (∀ ref : CodeReference,
      (get_file_lines eng.github ref.chunk.file_path
          (max 1 (ref.chunk.start_line - context_lines))
          (ref.chunk.end_line + context_lines) "main" 0 = none ∨
        get_file_lines eng.github ref.chunk.file_path
          (max 1 (ref.chunk.start_line - context_lines))
          (ref.chunk.end_line + context_lines) "main" 0 = some "") →
      expandRef eng context_lines ref = ref) := by
  refine ⟨by simp, ?_, ?_⟩
  · intro i
    rw [List.get?_map]
    cases references.get? i with
    | none => rfl
    | some r => simp [expandRef_chunk]
  · intro ref hfail
    unfold expandRef
    cases href : ref.full_content with
    | some fc => rfl
    | none =>
      rcases hfail with hf | hf <;> rw [hf] <;> simp

/-- Witness for C9: a reference whose fetch is a 404 survives expansion
unchanged. -/
theorem C9_expansion_nondestructive_witness :
    expandRef envEmpty 20 refSameLines = refSameLines :=
  (C9_expansion_nondestructive envEmpty 20 []).2.2 refSameLines
    (Or.inl (by decide))

/-- C10: evaluating `_search_qdrant` and the keyword-layer shape.  With
no configured client it returns `[]`, but with a configured client the
body executes `await asyncio.sleep(0)` although engine.py never imports
`asyncio`, so the call raises `NameError` instead of reaching its
`return []` — contradicting its own docstring and placeholder intent.
Either way the similarity layer contributes nothing (`search` catches
the error), and on a concrete search every returned reference carries
the keyword layer's placeholder bounds `start_line = 1`,
`end_line = 100` and empty content. -/
theorem C10_qdrant_eval :
    search_qdrant true "x" none 10 =
      Except.error "NameError: name asyncio is not defined" ∧
    search_qdrant false "x" none 10 = Except.ok [] ∧
    (search envDup "x" (some ["d"]) none 5 false 20).primary_references.map
      (fun r => (r.chunk.start_line, r.chunk.end_line, r.chunk.content)) =
      [(1, 100, ""), (1, 100, "")] := by
  exact ⟨rfl, rfl, by decide⟩

end AiPlatformData
